import Mathlib

/-!
Verification of the `sims_seeingModel` package against its specification.

The development shallowly embeds the three relevant source files:
* `seeingData.py`  — `SeeingData.__call__` / `SeeingData.read_data`
  (periodic nearest-neighbour time-series lookup);
* `seeingModel.py` — `SeeingModel.set_fwhm_zenith_system` /
  `SeeingModel.seeing_at_airmass` / `SeeingModel.fwhmEff_to_fwhmGeom`
  (optical scaling formulas);
* `seeingSim.py`   — `SeeingSim.__init__` / `get_fwhm500` /
  `calculate_seeing` / `get_seeing` (orchestrator).

Time stamps and seeing samples read from the database are exact numbers
(integers and short decimals), so the lookup side is embedded over `ℚ`,
keeping every operation decidable/executable.  The optical formulas use
`sqrt` and fractional powers, so the scaling side is embedded over `ℝ`.
Python exceptions are embedded as an `Except` error type.
-/

deriving instance DecidableEq for Except

namespace SeeingPkg

/-- The failure modes occurring in the embedded code.
`dataError` is the spec's name for a dedicated empty/malformed-source
failure; the remaining constructors are the failures the code actually
raises (index out of range, float modulo by zero, `list.index` miss,
`ValueError` from constructor validation). -/
inductive SeeingError where
  | dataError
  | indexError
  | zeroDivision
  | unknownFilter
  | valueError
  deriving DecidableEq, Repr

/-- Python's `%` on numbers with a nonzero right operand:
`x % r = x - r * floor (x / r)` (result has the sign of `r`).
The caller is responsible for `r ≠ 0` (Python raises `ZeroDivisionError`
there; the embedding of `SeeingData.__call__` guards that case). -/
def pymod (x r : ℚ) : ℚ := x - r * ⌊x / r⌋

/-- Python / numpy sequence indexing: a nonnegative index is used as is, a
negative index `i` addresses element `len + i`; anything else is an
`IndexError` (`none`). -/
def pyget (l : List ℚ) (i : ℤ) : Option ℚ :=
  if h : 0 ≤ i ∧ i < (l.length : ℤ) then
    some (l.get ⟨i.toNat, by omega⟩)
  else if h' : 0 ≤ i + (l.length : ℤ) ∧ i < 0 then
    some (l.get ⟨(i + (l.length : ℤ)).toNat, by omega⟩)
  else none

/-- `np.searchsorted(a, v)` (default `side='left'`) on a sorted array: the
number of elements strictly below `v`, i.e. the left insertion point. -/
def searchsorted (l : List ℚ) (v : ℚ) : ℕ := l.countP (fun d => decide (d < v))

/-- The state of a `SeeingData` instance after `read_data`:
the calendar-alignment `offset` fixed at construction, the sorted sample
arrays, and the window scalars computed by `read_data`. -/
structure SeeingData where
  offset : ℚ
  seeing_dates : List ℚ
  seeing_values : List ℚ
  min_time : ℚ
  max_time : ℚ
  time_range : ℚ
  deriving Repr, DecidableEq

namespace SeeingData

/-- `SeeingData.__call__(delta_time)` from `seeingData.py`:
fold the offset-adjusted time into the data window with `%`, binary-search
the insertion index, move one step left when the left neighbour is strictly
closer, and return the value at the resulting index.  numpy negative
indexing applies to `seeing_dates[idx - 1]`; `delta_time % self.time_range`
raises `ZeroDivisionError` when the range is zero. -/
def call (sd : SeeingData) (delta_time : ℚ) : Except SeeingError ℚ :=
  let dt := delta_time + sd.offset
  if sd.time_range = 0 then .error .zeroDivision
  else
    let date := pymod dt sd.time_range + sd.min_time
    let idx : ℤ := (searchsorted sd.seeing_dates date : ℤ)
    match pyget sd.seeing_dates (idx - 1), pyget sd.seeing_dates idx with
    | some left, some right =>
      let idx' := if date - left < right - date then idx - 1 else idx
      match pyget sd.seeing_values idx' with
      | some v => .ok v
      | none => .error .indexError
    | _, _ => .error .indexError

/-- The binary-search insertion index computed inside `SeeingData.__call__`
for a given `delta_time` (the value of `idx` right after `np.searchsorted`). -/
def lookup_idx (sd : SeeingData) (delta_time : ℚ) : ℤ :=
  (searchsorted sd.seeing_dates (pymod (delta_time + sd.offset) sd.time_range + sd.min_time) : ℤ)

end SeeingData

/-- Stable sort of the rows by date: the SQL `order by s_date` composed
with the `argsort` reordering performed by `read_data`. -/
def sortRows (rows : List (ℚ × ℚ)) : List (ℚ × ℚ) :=
  rows.insertionSort (fun a b => a.1 ≤ b.1)

namespace SeeingData

/-- `SeeingData.read_data` from `seeingData.py`, over an abstract row
source (the sqlite read is external I/O): collect the `(s_date, seeing)`
rows, sort by date, store the two columns, and derive `min_time` /
`max_time` / `time_range` from the first and last date.  On an empty
source the accesses `seeing_dates[0]` / `seeing_dates[-1]` raise
`IndexError` before any window scalar is set. -/
def read_data (offset : ℚ) (rows : List (ℚ × ℚ)) : Except SeeingError SeeingData :=
  let sorted := sortRows rows
  let dates := sorted.map Prod.fst
  let values := sorted.map Prod.snd
  match dates, values with
  | d :: rest, vals =>
    .ok { offset := offset
          seeing_dates := d :: rest
          seeing_values := vals
          min_time := d
          max_time := (d :: rest).getLast (by simp)
          time_range := (d :: rest).getLast (by simp) - d }
  | [], _ => .error .indexError

/-- The state invariants `read_data` establishes: sorted nonempty date
array, a value array of the same length, and window scalars derived from
the first and last date. -/
def Loaded (sd : SeeingData) : Prop :=
  sd.seeing_dates.Sorted (· ≤ ·) ∧
  sd.seeing_dates.head? = some sd.min_time ∧
  sd.seeing_dates.getLast? = some sd.max_time ∧
  sd.time_range = sd.max_time - sd.min_time ∧
  sd.seeing_values.length = sd.seeing_dates.length

end SeeingData

/-- The two-row source of the spec's nearest-neighbour example:
elapsed times 9997 and 10342 with seeing values 0.5 and 0.3. -/
def twoSampleRows : List (ℚ × ℚ) := [(9997, 1/2), (10342, 3/10)]

/-- The `SeeingData` state `read_data` produces from `twoSampleRows` with
a zero calendar offset. -/
def sdTwo : SeeingData :=
  { offset := 0
    seeing_dates := [9997, 10342]
    seeing_values := [1/2, 3/10]
    min_time := 9997
    max_time := 10342
    time_range := 345 }

/-- A single-row source: elapsed time 9997 with seeing value 0.5. -/
def oneSampleRows : List (ℚ × ℚ) := [(9997, 1/2)]

/-- The `SeeingData` state `read_data` produces from `oneSampleRows` with
a zero calendar offset; note `time_range = 0`. -/
def sdOne : SeeingData :=
  { offset := 0
    seeing_dates := [9997]
    seeing_values := [1/2]
    min_time := 9997
    max_time := 9997
    time_range := 0 }

noncomputable section

/-- The state of a `SeeingModel` instance from `seeingModel.py`.
`filter_list` is `none` when the attribute was never assigned (the
`__init__` branch receiving explicit `filter_effwavelens` does not set
it; `SeeingSim.__init__` assigns it afterwards). -/
structure SeeingModel where
  raw_seeing_wavelength : ℝ
  filter_list : Option (List String)
  filter_effwavelens : List ℝ
  fwhm_system_zenith : ℝ

namespace SeeingModel

/-- The hardcoded filter order of `seeingModel.py`'s fallback branch. -/
def default_filter_list : List String := ["u", "g", "r", "i", "z", "y"]

/-- The hardcoded `filter_dict` effective wavelengths of `seeingModel.py`'s
fallback branch (the `sims_photUtils` branch instead reads external
throughput files, which is out of scope per the spec), read off in
`default_filter_list` order. -/
def default_filter_effwavelens : List ℝ := [367.0, 482.5, 622.2, 754.5, 869.1, 971.0]

/-- `SeeingModel.set_fwhm_zenith_system`: the system contribution to FWHM
at zenith, the three configured contributions combined in quadrature. -/
def set_fwhm_zenith_system (telescope_seeing optical_design_seeing camera_seeing : ℝ) : ℝ :=
  Real.sqrt (telescope_seeing ^ 2 + optical_design_seeing ^ 2 + camera_seeing ^ 2)

/-- `SeeingModel.__init__`: store the derived system FWHM and the raw
seeing wavelength; with no supplied wavelengths fall back to the defaults
(also setting `filter_list`), otherwise store the supplied wavelengths and
leave the `filter_list` attribute unset. -/
def create (telescope_seeing optical_design_seeing camera_seeing raw_seeing_wavelength : ℝ)
    (filter_effwavelens : Option (List ℝ)) : SeeingModel :=
  match filter_effwavelens with
  | none =>
    { raw_seeing_wavelength := raw_seeing_wavelength
      filter_list := some default_filter_list
      filter_effwavelens := default_filter_effwavelens
      fwhm_system_zenith :=
        set_fwhm_zenith_system telescope_seeing optical_design_seeing camera_seeing }
  | some wl =>
    { raw_seeing_wavelength := raw_seeing_wavelength
      filter_list := none
      filter_effwavelens := wl
      fwhm_system_zenith :=
        set_fwhm_zenith_system telescope_seeing optical_design_seeing camera_seeing }

/-- `SeeingModel.fwhmEff_to_fwhmGeom`. -/
def fwhmEff_to_fwhmGeom (fwhm_eff : ℝ) : ℝ := 0.822 * fwhm_eff + 0.052

/-- `SeeingModel.fwhmGeom_to_fwhmEff`. -/
def fwhmGeom_to_fwhmEff (fwhm_geom : ℝ) : ℝ := (fwhm_geom - 0.052) / 0.822

/-- `SeeingModel.seeing_at_airmass` with a scalar `airmass` (the
`else` branch of the `isinstance` test): a pair of 1-d arrays over the
configured filters, `(fwhm_eff, fwhm_geom)`. -/
def seeing_at_airmass (m : SeeingModel) (fwhm_500 airmass : ℝ) : List ℝ × List ℝ :=
  let airmass_correction := airmass ^ (0.6 : ℝ)
  let wavelen_correction :=
    m.filter_effwavelens.map (fun w => (m.raw_seeing_wavelength / w) ^ (0.3 : ℝ))
  let fwhm_system := m.fwhm_system_zenith * airmass_correction
  let fwhm_atmo := wavelen_correction.map (fun wc => fwhm_500 * wc * airmass_correction)
  let fwhm_eff := fwhm_atmo.map (fun fa => 1.16 * Real.sqrt (fwhm_system ^ 2 + 1.04 * fa ^ 2))
  (fwhm_eff, fwhm_eff.map fwhmEff_to_fwhmGeom)

/-- `SeeingModel.seeing_at_airmass` with an array `airmass` (the
`isinstance(airmass, np.ndarray)` branch): a pair of filter-major,
airmass-minor 2-d grids.  `np.outer(np.ones(len(wavelen_correction)),
airmass_correction)` repeats the airmass row once per filter. -/
def seeing_at_airmass_array (m : SeeingModel) (fwhm_500 : ℝ) (airmass : List ℝ) :
    List (List ℝ) × List (List ℝ) :=
  let airmass_correction := airmass.map (fun a => a ^ (0.6 : ℝ))
  let wavelen_correction :=
    m.filter_effwavelens.map (fun w => (m.raw_seeing_wavelength / w) ^ (0.3 : ℝ))
  let fwhm_system :=
    wavelen_correction.map (fun _ => airmass_correction.map (fun ac => m.fwhm_system_zenith * (1 * ac)))
  let fwhm_atmo :=
    wavelen_correction.map (fun wc => airmass_correction.map (fun ac => fwhm_500 * (wc * ac)))
  let fwhm_eff :=
    List.zipWith (List.zipWith (fun fs fa => 1.16 * Real.sqrt (fs ^ 2 + 1.04 * fa ^ 2)))
      fwhm_system fwhm_atmo
  (fwhm_eff, fwhm_eff.map (List.map fwhmEff_to_fwhmGeom))

end SeeingModel

/-- Python's `list.index(x)` as used by `SeeingSim.calculate_seeing`:
the first index holding `x`, or a `ValueError` (`none`) when absent. -/
def py_list_index (x : String) : List String → Option ℕ
  | [] => none
  | y :: ys => if y = x then some 0 else (py_list_index x ys).map (· + 1)

/-- Modelled from the spec: `SeeingSim` calls
`self.seeing_data.fwhm500_at_time(delta_time)`, a method absent from the
`SeeingData` revision in this snapshot (only its caller is present here).
Per the spec the orchestrator obtains the zenith seeing value through the
time-series lookup (`TimeSeriesLookup.lookup`), which this snapshot
implements as `SeeingData.__call__`. -/
def SeeingData.fwhm500_at_time (sd : SeeingData) (delta_time : ℚ) : Except SeeingError ℚ :=
  sd.call delta_time

/-- The state of a `SeeingSim` instance from `seeingSim.py`. -/
structure SeeingSim where
  seeing_data : SeeingData
  seeing_model : SeeingModel
  filter_list : List String

namespace SeeingSim

/-- `SeeingSim.__init__`: load the seeing data, build the model, and when
explicit wavelengths are supplied validate the filter list (`ValueError`
when missing or of mismatched length) and assign it to the model. -/
def create (offset : ℚ) (rows : List (ℚ × ℚ))
    (telescope_seeing optical_design_seeing camera_seeing raw_seeing_wavelength : ℝ)
    (filter_effwavelens : Option (List ℝ)) (filter_list : Option (List String)) :
    Except SeeingError SeeingSim :=
  match SeeingData.read_data offset rows with
  | .error e => .error e
  | .ok sdata =>
    let smodel := SeeingModel.create telescope_seeing optical_design_seeing camera_seeing
      raw_seeing_wavelength filter_effwavelens
    match filter_effwavelens with
    | some wl =>
      match filter_list with
      | none => .error .valueError
      | some fl =>
        if fl.length ≠ wl.length then .error .valueError
        else .ok ⟨sdata, { smodel with filter_list := some fl }, fl⟩
    | none =>
      match smodel.filter_list with
      | some fl => .ok ⟨sdata, smodel, fl⟩
      | none => .error .valueError

/-- `SeeingSim.get_fwhm500`. -/
def get_fwhm500 (s : SeeingSim) (delta_time : ℚ) : Except SeeingError ℚ :=
  s.seeing_data.fwhm500_at_time delta_time

/-- `SeeingSim.calculate_seeing`: look up FWHM_500, evaluate the model at
the given airmass, and select the single requested filter's entries;
returns `(fwhm_500, fwhm_geom, fwhm_eff)`. -/
def calculate_seeing (s : SeeingSim) (delta_time : ℚ) (filter_name : String) (airmass : ℝ) :
    Except SeeingError (ℚ × ℝ × ℝ) :=
  match s.seeing_data.fwhm500_at_time delta_time with
  | .error e => .error e
  | .ok fwhm_500 =>
    let res := s.seeing_model.seeing_at_airmass (fwhm_500 : ℝ) airmass
    match py_list_index filter_name s.filter_list with
    | none => .error .unknownFilter
    | some idx =>
      match res.1.get? idx, res.2.get? idx with
      | some fwhm_eff, some fwhm_geom => .ok (fwhm_500, fwhm_geom, fwhm_eff)
      | _, _ => .error .indexError

/-- `SeeingSim.get_seeing`: look up FWHM_500 and evaluate the model at the
given scalar airmass for all filters; returns
`(fwhm_500, fwhm_geom, fwhm_eff)`. -/
def get_seeing (s : SeeingSim) (delta_time : ℚ) (airmass : ℝ) :
    Except SeeingError (ℚ × List ℝ × List ℝ) :=
  match s.seeing_data.fwhm500_at_time delta_time with
  | .error e => .error e
  | .ok fwhm_500 =>
    let res := s.seeing_model.seeing_at_airmass (fwhm_500 : ℝ) airmass
    .ok (fwhm_500, res.2, res.1)

end SeeingSim

/-- Written from the claim (spec side of the refinement): FWHM_effective
as `1.16 * sqrt((fwhm_system_zenith * a^0.6)^2 + 1.04 * (fwhm_zenith *
(raw_seeing_wavelength / lambda_f)^0.3 * a^0.6)^2)` with
`fwhm_system_zenith = sqrt(telescope_seeing^2 + optical_design_seeing^2 +
camera_seeing^2)`. -/
def spec_fwhm_eff (telescope_seeing optical_design_seeing camera_seeing
    raw_seeing_wavelength lambda_f fwhm_zenith a : ℝ) : ℝ :=
  1.16 * Real.sqrt
    ((Real.sqrt (telescope_seeing ^ 2 + optical_design_seeing ^ 2 + camera_seeing ^ 2)
        * a ^ (0.6 : ℝ)) ^ 2
      + 1.04 * (fwhm_zenith * (raw_seeing_wavelength / lambda_f) ^ (0.3 : ℝ)
        * a ^ (0.6 : ℝ)) ^ 2)

/-- Written from the claim (spec side of the refinement): FWHM_geometric
as `0.822 * fwhm_eff + 0.052`. -/
def spec_fwhm_geom (telescope_seeing optical_design_seeing camera_seeing
    raw_seeing_wavelength lambda_f fwhm_zenith a : ℝ) : ℝ :=
  0.822 * spec_fwhm_eff telescope_seeing optical_design_seeing camera_seeing
    raw_seeing_wavelength lambda_f fwhm_zenith a + 0.052

/-- A concrete single-filter scaling model for witnesses: default system
contributions, reference wavelength 500 nm, one filter at 500 nm. -/
def modelW : SeeingModel :=
  { (SeeingModel.create 0.25 0.08 0.30 500 (some [500])) with filter_list := some ["u"] }

/-- A concrete orchestrator state for witnesses: the two-sample data and
the single-filter model. -/
def simW : SeeingSim :=
  { seeing_data := sdTwo
    seeing_model := modelW
    filter_list := ["u"] }

end

instance : IsTotal (ℚ × ℚ) (fun a b => a.1 ≤ b.1) := ⟨fun a b => le_total a.1 b.1⟩

instance : IsTrans (ℚ × ℚ) (fun a b => a.1 ≤ b.1) := ⟨fun _ _ _ h h' => le_trans h h'⟩

theorem sortRows_sorted (rows : List (ℚ × ℚ)) :
    ((sortRows rows).map Prod.fst).Sorted (· ≤ ·) := by
  have h := List.sorted_insertionSort (fun a b : ℚ × ℚ => a.1 ≤ b.1) rows
  exact List.Pairwise.map _ (fun a b hab => hab) h

theorem read_data_loaded {offset : ℚ} {rows : List (ℚ × ℚ)} {sd : SeeingData}
    (h : SeeingData.read_data offset rows = .ok sd) : sd.Loaded := by
  simp only [SeeingData.read_data] at h
  split at h
  case _ heq =>
    rw [Except.ok.injEq] at h
    subst h
    rename_i d rest
    refine ⟨?_, rfl, ?_, rfl, ?_⟩
    · dsimp only
      rw [← heq]; exact sortRows_sorted rows
    · exact List.getLast?_eq_getLast _ _
    · simp only [List.length_map]
      rw [← heq]; simp
  case _ => simp at h

theorem min_le_max_of_loaded {sd : SeeingData} (hL : sd.Loaded) :
    sd.min_time ≤ sd.max_time := by
  obtain ⟨hs, hh, hl, -, -⟩ := hL
  have hmem : sd.max_time ∈ sd.seeing_dates := List.mem_of_getLast?_eq_some hl
  cases hd : sd.seeing_dates with
  | nil => rw [hd] at hh; simp at hh
  | cons d rest =>
    rw [hd] at hh hs hmem
    have hdm : d = sd.min_time := by simpa using hh
    rcases List.mem_cons.mp hmem with h1 | h2
    · rw [← hdm, h1]
    · rw [← hdm]; exact (List.sorted_cons.mp hs).1 _ h2

theorem pyget_isSome {l : List ℚ} {i : ℤ} (h1 : -(l.length : ℤ) ≤ i) (h2 : i < (l.length : ℤ)) :
    ∃ y, pyget l i = some y := by
  unfold pyget
  by_cases h0 : 0 ≤ i
  · rw [dif_pos ⟨h0, h2⟩]
    exact ⟨_, rfl⟩
  · rw [dif_neg (fun hc => h0 hc.1), dif_pos ⟨by omega, by omega⟩]
    exact ⟨_, rfl⟩

theorem searchsorted_lt_length {l : List ℚ} {v a : ℚ} (ha : a ∈ l) (hva : v ≤ a) :
    searchsorted l v < l.length := by
  unfold searchsorted
  rcases Nat.lt_or_ge (l.countP fun d => decide (d < v)) l.length with h | h
  · exact h
  · exfalso
    have heq : (l.countP fun d => decide (d < v)) = l.length :=
      le_antisymm (List.countP_le_length _) h
    have := (List.countP_eq_length).mp heq a ha
    simp only [decide_eq_true_eq] at this
    exact absurd hva (not_le.mpr this)

theorem pymod_eq_fract (x : ℚ) {r : ℚ} (hr : r ≠ 0) : pymod x r = r * Int.fract (x / r) := by
  rw [pymod, Int.fract, mul_sub, mul_div_cancel₀ _ hr]

theorem pymod_nonneg (x : ℚ) {r : ℚ} (hr : 0 < r) : 0 ≤ pymod x r := by
  rw [pymod_eq_fract x hr.ne']
  exact mul_nonneg hr.le (Int.fract_nonneg _)

theorem pymod_lt (x : ℚ) {r : ℚ} (hr : 0 < r) : pymod x r < r := by
  rw [pymod_eq_fract x hr.ne']
  calc r * Int.fract (x / r) < r * 1 := by
        exact mul_lt_mul_of_pos_left (Int.fract_lt_one _) hr
    _ = r := mul_one r

theorem pymod_add_int_mul (x : ℚ) (r : ℚ) (k : ℤ) : pymod (x + k * r) r = pymod x r := by
  by_cases hr : r = 0
  · simp [hr]
  · unfold pymod
    have hdiv : (x + k * r) / r = x / r + k := by
      field_simp
    rw [hdiv, Int.floor_add_int]
    push_cast
    ring

/-- C5: a lookup at `t + k * time_range` folds to the same query point as
a lookup at `t` (namely `(t + offset) mod time_range + min_time`), hence
returns the same result. -/
theorem seeingData_call_periodic (sd : SeeingData) (t : ℚ) (k : ℤ) :
    sd.call (t + k * sd.time_range) = sd.call t := by
  unfold SeeingData.call
  by_cases hT : sd.time_range = 0
  · simp [hT]
  · rw [if_neg hT, if_neg hT]
    have h : t + (k : ℚ) * sd.time_range + sd.offset
        = (t + sd.offset) + (k : ℚ) * sd.time_range := by ring
    rw [h, pymod_add_int_mul]

/-- C2 (counterexample): on the two-sample series with elapsed times
{9997, 10342}, values {0.5, 0.3} and zero offset, the lookup whose folded
query time is exactly the midpoint 10169.5 returns 0.3, not the claimed
0.5: the tie comparison `date - left < right - date` is strict, so an
exact tie keeps the right-hand sample. -/
theorem midpoint_tie_counterexample :
    SeeingData.read_data 0 twoSampleRows = .ok sdTwo ∧
    pymod ((345 : ℚ)/2 + sdTwo.offset) sdTwo.time_range + sdTwo.min_time = 20339/2 ∧
    sdTwo.call (345/2) = .ok (3/10) ∧ ¬ sdTwo.call (345/2) = .ok (1/2) := by
  refine ⟨?_, ?_, ?_, ?_⟩
  · norm_num [SeeingData.read_data, sortRows, twoSampleRows, sdTwo,
      List.insertionSort, List.orderedInsert]
  · norm_num [pymod, sdTwo]
  · norm_num [SeeingData.call, pymod, searchsorted, pyget, sdTwo, List.countP, List.countP.go]
  · norm_num [SeeingData.call, pymod, searchsorted, pyget, sdTwo, List.countP, List.countP.go]

/-- C2 (amended): on the two-sample series with elapsed times
{9997, 10342}, values {0.5, 0.3} and zero offset, the lookup whose folded
query time is exactly the midpoint 10169.5 returns 0.3 (on an exact tie
the code prefers the later/right sample, since it moves left only when
the left distance is strictly smaller); a lookup whose folded query time
is 10169 returns 0.5; one whose folded query time is 10170 returns 0.3. -/
theorem two_sample_lookup_values :
    SeeingData.read_data 0 twoSampleRows = .ok sdTwo ∧
    (pymod ((345 : ℚ)/2 + sdTwo.offset) sdTwo.time_range + sdTwo.min_time = 20339/2 ∧
      sdTwo.call (345/2) = .ok (3/10)) ∧
    (pymod ((172 : ℚ) + sdTwo.offset) sdTwo.time_range + sdTwo.min_time = 10169 ∧
      sdTwo.call 172 = .ok (1/2)) ∧
    (pymod ((173 : ℚ) + sdTwo.offset) sdTwo.time_range + sdTwo.min_time = 10170 ∧
      sdTwo.call 173 = .ok (3/10)) := by
  refine ⟨?_, ⟨?_, ?_⟩, ⟨?_, ?_⟩, ⟨?_, ?_⟩⟩
  · norm_num [SeeingData.read_data, sortRows, twoSampleRows, sdTwo,
      List.insertionSort, List.orderedInsert]
  all_goals
    norm_num [SeeingData.call, pymod, searchsorted, pyget, sdTwo, List.countP, List.countP.go]

/-- C6 (counterexample): on the loaded two-sample series, a query whose
folded time equals `min_time` (delta_time 0 with zero offset) produces
insertion index 0, not an index in [1, len-1]; the access at `idx - 1`
then uses numpy negative index -1 (the last element), and the lookup
returns the last sample's value. -/
theorem lookup_idx_zero_counterexample :
    SeeingData.read_data 0 twoSampleRows = .ok sdTwo ∧
    sdTwo.lookup_idx 0 = 0 ∧ ¬ (1 ≤ sdTwo.lookup_idx 0) ∧ sdTwo.call 0 = .ok (3/10) := by
  refine ⟨?_, ?_, ?_, ?_⟩
  · norm_num [SeeingData.read_data, sortRows, twoSampleRows, sdTwo,
      List.insertionSort, List.orderedInsert]
  · norm_num [SeeingData.lookup_idx, pymod, searchsorted, sdTwo, List.countP, List.countP.go]
  · norm_num [SeeingData.lookup_idx, pymod, searchsorted, sdTwo, List.countP, List.countP.go]
  · norm_num [SeeingData.call, pymod, searchsorted, pyget, sdTwo, List.countP, List.countP.go]

/-- C6 (amended): for every loaded series with at least two samples and a
nonzero time range, the insertion index lies in [0, len-1] (index 0 is
reached exactly when the folded time hits `min_time`); every access the
lookup performs then succeeds — `seeing_dates[idx]` with a nonnegative
in-bounds index, `seeing_dates[idx-1]` in-bounds via numpy indexing
(negative index -1 when idx = 0), and the final value access — so the
lookup returns a value. -/
theorem lookup_idx_bounds_and_access_safe (sd : SeeingData) (hL : sd.Loaded)
    (h2 : 2 ≤ sd.seeing_dates.length) (hT : sd.time_range ≠ 0) (t : ℚ) :
    0 ≤ sd.lookup_idx t ∧ sd.lookup_idx t ≤ (sd.seeing_dates.length : ℤ) - 1 ∧
    ∃ v, sd.call t = .ok v := by
  have hminmax : sd.min_time ≤ sd.max_time := min_le_max_of_loaded hL
  obtain ⟨hs, hh, hl, hr, hval⟩ := hL
  have hTpos : 0 < sd.time_range := by
    rcases lt_or_eq_of_le (by rw [hr]; linarith : (0:ℚ) ≤ sd.time_range) with h | h
    · exact h
    · exact absurd h.symm hT
  have hdate_lt : pymod (t + sd.offset) sd.time_range + sd.min_time < sd.max_time := by
    have h1 := pymod_lt (t + sd.offset) hTpos
    linarith [hr.le, hr.ge]
  have hmax_mem : sd.max_time ∈ sd.seeing_dates := List.mem_of_getLast?_eq_some hl
  have hidx_lt :
      searchsorted sd.seeing_dates (pymod (t + sd.offset) sd.time_range + sd.min_time)
        < sd.seeing_dates.length :=
    searchsorted_lt_length hmax_mem hdate_lt.le
  refine ⟨Int.natCast_nonneg _, by unfold SeeingData.lookup_idx; omega, ?_⟩
  unfold SeeingData.call
  rw [if_neg hT]
  obtain ⟨left, hleft⟩ := pyget_isSome (l := sd.seeing_dates)
    (i := (searchsorted sd.seeing_dates (pymod (t + sd.offset) sd.time_range + sd.min_time) : ℤ) - 1)
    (by omega) (by omega)
  obtain ⟨right, hright⟩ := pyget_isSome (l := sd.seeing_dates)
    (i := (searchsorted sd.seeing_dates (pymod (t + sd.offset) sd.time_range + sd.min_time) : ℤ))
    (by omega) (by omega)
  simp only [hleft, hright]
  by_cases hc : pymod (t + sd.offset) sd.time_range + sd.min_time - left
      < right - (pymod (t + sd.offset) sd.time_range + sd.min_time)
  · rw [if_pos hc]
    obtain ⟨v, hv⟩ := pyget_isSome (l := sd.seeing_values)
      (i := (searchsorted sd.seeing_dates (pymod (t + sd.offset) sd.time_range + sd.min_time) : ℤ) - 1)
      (by rw [hval]; omega) (by rw [hval]; omega)
    rw [hv]
    exact ⟨v, rfl⟩
  · rw [if_neg hc]
    obtain ⟨v, hv⟩ := pyget_isSome (l := sd.seeing_values)
      (i := (searchsorted sd.seeing_dates (pymod (t + sd.offset) sd.time_range + sd.min_time) : ℤ))
      (by rw [hval]; omega) (by rw [hval]; omega)
    rw [hv]
    exact ⟨v, rfl⟩

/-- C6 (amended) witness: the bounds and lookup success instantiated on
the loaded two-sample series at delta_time 172. -/
theorem lookup_idx_bounds_and_access_safe_witness :
    0 ≤ sdTwo.lookup_idx 172 ∧ sdTwo.lookup_idx 172 ≤ (sdTwo.seeing_dates.length : ℤ) - 1 ∧
    ∃ v, sdTwo.call 172 = .ok v :=
  lookup_idx_bounds_and_access_safe sdTwo
    ⟨by norm_num [sdTwo, List.Sorted], rfl, rfl, by norm_num [sdTwo], rfl⟩
    (by norm_num [sdTwo]) (by norm_num [sdTwo]) 172

/-- C7: loading a single-row source succeeds (no validation rejects it),
but a subsequent lookup does not return the sole value: it evaluates
`delta_time % self.time_range` with `time_range = 0`, a float modulo by
zero (`ZeroDivisionError`), instead of returning the row's value 0.5 as
the spec requires. -/
theorem single_sample_lookup_zero_division :
    SeeingData.read_data 0 oneSampleRows = .ok sdOne ∧ sdOne.time_range = 0 ∧
    sdOne.call 100 = .error .zeroDivision ∧ ¬ sdOne.call 100 = .ok (1/2) := by
  refine ⟨?_, rfl, ?_, ?_⟩
  · norm_num [SeeingData.read_data, sortRows, oneSampleRows, sdOne,
      List.insertionSort, List.orderedInsert]
  · norm_num [SeeingData.call, sdOne]
  · intro h
    norm_num [SeeingData.call, sdOne] at h
    exact Except.noConfusion h

/-- C8 (counterexample): loading an empty source fails, but with the
uncaught `IndexError` from evaluating `seeing_dates[0]`, not with a
dedicated `DataError` kind. -/
theorem empty_load_error_kind_counterexample :
    SeeingData.read_data 0 ([] : List (ℚ × ℚ)) = .error .indexError ∧
    SeeingError.indexError ≠ SeeingError.dataError :=
  ⟨rfl, by decide⟩

/-- C8 (amended): for every calendar offset, loading a source that yields
zero rows fails — leaving no usable lookup state — with the
index-out-of-bounds error raised when `read_data` evaluates
`seeing_dates[0]`, rather than with a dedicated `DataError`. -/
theorem empty_load_fails_with_index_error (offset : ℚ) :
    SeeingData.read_data offset [] = .error .indexError := rfl

/-- C3: for every configured scaling model (either wavelength branch of
the constructor), every zenith seeing scalar, every filter (identified by
its effective wavelength at index `i`) and every airmass, the evaluated
per-filter outputs equal the spec's closed-form formulas
`spec_fwhm_eff` and `spec_fwhm_geom`. -/
theorem seeing_at_airmass_matches_spec_formula
    (telescope_seeing optical_design_seeing camera_seeing raw_seeing_wavelength : ℝ)
    (wl : Option (List ℝ)) (fwhm_zenith a : ℝ) (i : ℕ) (lambda_f : ℝ)
    (hw : (SeeingModel.create telescope_seeing optical_design_seeing camera_seeing
      raw_seeing_wavelength wl).filter_effwavelens[i]? = some lambda_f) :
    ((SeeingModel.create telescope_seeing optical_design_seeing camera_seeing
        raw_seeing_wavelength wl).seeing_at_airmass fwhm_zenith a).1[i]?
      = some (spec_fwhm_eff telescope_seeing optical_design_seeing camera_seeing
          raw_seeing_wavelength lambda_f fwhm_zenith a) ∧
    ((SeeingModel.create telescope_seeing optical_design_seeing camera_seeing
        raw_seeing_wavelength wl).seeing_at_airmass fwhm_zenith a).2[i]?
      = some (spec_fwhm_geom telescope_seeing optical_design_seeing camera_seeing
          raw_seeing_wavelength lambda_f fwhm_zenith a) := by
  have hsys : (SeeingModel.create telescope_seeing optical_design_seeing camera_seeing
      raw_seeing_wavelength wl).fwhm_system_zenith
      = Real.sqrt (telescope_seeing ^ 2 + optical_design_seeing ^ 2 + camera_seeing ^ 2) := by
    cases wl <;> rfl
  have hraw : (SeeingModel.create telescope_seeing optical_design_seeing camera_seeing
      raw_seeing_wavelength wl).raw_seeing_wavelength = raw_seeing_wavelength := by
    cases wl <;> rfl
  unfold SeeingModel.seeing_at_airmass
  constructor
  · simp only [List.getElem?_map, hw, Option.map_some', spec_fwhm_eff, hsys, hraw]
  · simp only [List.getElem?_map, hw, Option.map_some', spec_fwhm_geom, spec_fwhm_eff,
      SeeingModel.fwhmEff_to_fwhmGeom, hsys, hraw]

/-- C3 witness: the formula instantiated on a model with one filter at
500 nm, zenith seeing 0.6 and airmass 1.2. -/
theorem seeing_at_airmass_matches_spec_formula_witness :
    ((SeeingModel.create 0.25 0.08 0.30 500 (some [500])).seeing_at_airmass 0.6 1.2).1[0]?
      = some (spec_fwhm_eff 0.25 0.08 0.30 500 500 0.6 1.2) ∧
    ((SeeingModel.create 0.25 0.08 0.30 500 (some [500])).seeing_at_airmass 0.6 1.2).2[0]?
      = some (spec_fwhm_geom 0.25 0.08 0.30 500 500 0.6 1.2) :=
  seeing_at_airmass_matches_spec_formula 0.25 0.08 0.30 500 (some [500]) 0.6 1.2 0 500
    (by simp [SeeingModel.create])

theorem seeing_at_airmass_eq (m : SeeingModel) (fz a : ℝ) :
    m.seeing_at_airmass fz a
      = (m.filter_effwavelens.map (fun w =>
          1.16 * Real.sqrt ((m.fwhm_system_zenith * a ^ (0.6 : ℝ)) ^ 2
            + 1.04 * (fz * (m.raw_seeing_wavelength / w) ^ (0.3 : ℝ) * a ^ (0.6 : ℝ)) ^ 2)),
         m.filter_effwavelens.map (fun w =>
          SeeingModel.fwhmEff_to_fwhmGeom
            (1.16 * Real.sqrt ((m.fwhm_system_zenith * a ^ (0.6 : ℝ)) ^ 2
              + 1.04 * (fz * (m.raw_seeing_wavelength / w) ^ (0.3 : ℝ) * a ^ (0.6 : ℝ)) ^ 2)))) := by
  simp only [SeeingModel.seeing_at_airmass, List.map_map, Function.comp_def]

theorem seeing_at_airmass_array_eq (m : SeeingModel) (fz : ℝ) (as : List ℝ) :
    m.seeing_at_airmass_array fz as
      = (m.filter_effwavelens.map (fun w => as.map (fun x =>
          1.16 * Real.sqrt ((m.fwhm_system_zenith * (1 * x ^ (0.6 : ℝ))) ^ 2
            + 1.04 * (fz * ((m.raw_seeing_wavelength / w) ^ (0.3 : ℝ) * x ^ (0.6 : ℝ))) ^ 2))),
        m.filter_effwavelens.map (fun w => as.map (fun x =>
          SeeingModel.fwhmEff_to_fwhmGeom
            (1.16 * Real.sqrt ((m.fwhm_system_zenith * (1 * x ^ (0.6 : ℝ))) ^ 2
              + 1.04 * (fz * ((m.raw_seeing_wavelength / w) ^ (0.3 : ℝ) * x ^ (0.6 : ℝ))) ^ 2))))) := by
  simp only [SeeingModel.seeing_at_airmass_array, List.zipWith_map, List.zipWith_same,
    List.map_map, Function.comp_def]

/-- C4: for every scaling model whose configured filter list has length
F ≥ 1 (matching the wavelength array): the scalar-airmass evaluation
returns two 1-d sequences of length F in configured filter order, and the
array-airmass evaluation returns two F-by-N grids (filter-major,
airmass-minor) whose `[i][j]` entry equals the scalar result for filter
`i` at airmass `as[j]`. -/
theorem seeing_at_airmass_shape_contract (m : SeeingModel) (fl : List String) (F : ℕ)
    (hfl : m.filter_list = some fl) (hF : fl.length = F)
    (hw : m.filter_effwavelens.length = fl.length) (hF1 : 1 ≤ F)
    (fz a : ℝ) (as : List ℝ) :
    ((m.seeing_at_airmass fz a).1.length = F ∧ (m.seeing_at_airmass fz a).2.length = F) ∧
    ((m.seeing_at_airmass_array fz as).1.length = F ∧
      (m.seeing_at_airmass_array fz as).2.length = F ∧
      (∀ row ∈ (m.seeing_at_airmass_array fz as).1, row.length = as.length) ∧
      (∀ row ∈ (m.seeing_at_airmass_array fz as).2, row.length = as.length) ∧
      ∀ (i j : ℕ), i < F → ∀ hj : j < as.length,
        ((m.seeing_at_airmass_array fz as).1[i]?.bind (fun row => row[j]?))
          = (m.seeing_at_airmass fz (as.get ⟨j, hj⟩)).1[i]? ∧
        ((m.seeing_at_airmass_array fz as).2[i]?.bind (fun row => row[j]?))
          = (m.seeing_at_airmass fz (as.get ⟨j, hj⟩)).2[i]?) := by
  rw [seeing_at_airmass_array_eq]
  constructor
  · rw [seeing_at_airmass_eq]
    constructor <;> simp [hw, hF]
  · refine ⟨by simp [hw, hF], by simp [hw, hF], ?_, ?_, ?_⟩
    · intro row hrow
      simp only [List.mem_map] at hrow
      obtain ⟨w, -, hweq⟩ := hrow
      rw [← hweq]; simp
    · intro row hrow
      simp only [List.mem_map] at hrow
      obtain ⟨w, -, hweq⟩ := hrow
      rw [← hweq]; simp
    · intro i j hi hj
      have hiw : i < m.filter_effwavelens.length := by omega
      rw [seeing_at_airmass_eq]
      constructor
      · simp only [List.getElem?_map, List.getElem?_eq_getElem hiw, Option.map_some',
          Option.some_bind, List.getElem?_eq_getElem hj, List.get_eq_getElem,
          one_mul, mul_assoc]
      · simp only [List.getElem?_map, List.getElem?_eq_getElem hiw, Option.map_some',
          Option.some_bind, List.getElem?_eq_getElem hj, List.get_eq_getElem,
          SeeingModel.fwhmEff_to_fwhmGeom, one_mul, mul_assoc]

/-- C4 witness: the shape contract instantiated on the single-filter
model `modelW` with the two airmasses [1.0, 1.3]. -/
theorem seeing_at_airmass_shape_contract_witness :
    ((modelW.seeing_at_airmass 0.6 1.1).1.length = 1 ∧
      (modelW.seeing_at_airmass 0.6 1.1).2.length = 1) ∧
    ((modelW.seeing_at_airmass_array 0.6 [1.0, 1.3]).1.length = 1 ∧
      (modelW.seeing_at_airmass_array 0.6 [1.0, 1.3]).2.length = 1 ∧
      (∀ row ∈ (modelW.seeing_at_airmass_array 0.6 [1.0, 1.3]).1,
        row.length = ([(1.0 : ℝ), 1.3]).length) ∧
      (∀ row ∈ (modelW.seeing_at_airmass_array 0.6 [1.0, 1.3]).2,
        row.length = ([(1.0 : ℝ), 1.3]).length) ∧
      ∀ (i j : ℕ), i < 1 → ∀ hj : j < ([(1.0 : ℝ), 1.3]).length,
        ((modelW.seeing_at_airmass_array 0.6 [1.0, 1.3]).1[i]?.bind (fun row => row[j]?))
          = (modelW.seeing_at_airmass 0.6 (([(1.0 : ℝ), 1.3]).get ⟨j, hj⟩)).1[i]? ∧
        ((modelW.seeing_at_airmass_array 0.6 [1.0, 1.3]).2[i]?.bind (fun row => row[j]?))
          = (modelW.seeing_at_airmass 0.6 (([(1.0 : ℝ), 1.3]).get ⟨j, hj⟩)).2[i]?) :=
  seeing_at_airmass_shape_contract modelW ["u"] 1 rfl rfl rfl (le_refl 1) 0.6 1.1 [1.0, 1.3]

theorem py_list_index_eq_none {x : String} {l : List String} (h : x ∉ l) :
    py_list_index x l = none := by
  induction l with
  | nil => rfl
  | cons y ys ih =>
    rw [py_list_index]
    rw [if_neg (by rintro rfl; exact h (List.mem_cons_self _ _))]
    rw [ih (fun hm => h (List.mem_cons_of_mem _ hm))]
    rfl

theorem py_list_index_eq_some {x : String} {l : List String} (h : x ∈ l) :
    ∃ i, py_list_index x l = some i ∧ i < l.length := by
  induction l with
  | nil => simp at h
  | cons y ys ih =>
    rw [py_list_index]
    by_cases hy : y = x
    · exact ⟨0, by rw [if_pos hy], by simp⟩
    · have hm : x ∈ ys := by
        rcases List.mem_cons.mp h with h1 | h2
        · exact absurd h1.symm hy
        · exact h2
      obtain ⟨i, hi, hlt⟩ := ih hm
      exact ⟨i + 1, by rw [if_neg hy, hi]; rfl, by simp; omega⟩

/-- C1: whenever the time-series lookup at `dt` yields the zenith value
`v`, the orchestrator's `get_fwhm500` returns exactly `v`; `get_seeing`
returns `v` together with the model's per-filter FWHM_geometric and
FWHM_effective arrays evaluated at `v` and the airmass; and
`calculate_seeing` returns `v` with that filter's entries of those
arrays.  (`fwhm500_at_time` is spec-modelled as the lookup, see its doc
comment.) -/
theorem orchestrator_returns_lookup_and_model_values (s : SeeingSim) (dt : ℚ) (a : ℝ)
    (v : ℚ) (fname : String) (i : ℕ)
    (hlook : s.seeing_data.call dt = .ok v)
    (hidx : py_list_index fname s.filter_list = some i)
    (hi : i < (s.seeing_model.seeing_at_airmass (v : ℝ) a).1.length) :
    s.get_fwhm500 dt = .ok v ∧
    s.get_seeing dt a = .ok (v, (s.seeing_model.seeing_at_airmass (v : ℝ) a).2,
      (s.seeing_model.seeing_at_airmass (v : ℝ) a).1) ∧
    ∃ fe fg, (s.seeing_model.seeing_at_airmass (v : ℝ) a).1[i]? = some fe ∧
      (s.seeing_model.seeing_at_airmass (v : ℝ) a).2[i]? = some fg ∧
      s.calculate_seeing dt fname a = .ok (v, fg, fe) := by
  have h2len : (s.seeing_model.seeing_at_airmass (v : ℝ) a).2.length
      = (s.seeing_model.seeing_at_airmass (v : ℝ) a).1.length := by
    rw [seeing_at_airmass_eq]; simp
  refine ⟨?_, ?_, ?_⟩
  · unfold SeeingSim.get_fwhm500 SeeingData.fwhm500_at_time
    rw [hlook]
  · unfold SeeingSim.get_seeing SeeingData.fwhm500_at_time
    rw [hlook]
  · obtain ⟨fe, hfe⟩ : ∃ fe, (s.seeing_model.seeing_at_airmass (v : ℝ) a).1[i]? = some fe :=
      ⟨_, List.getElem?_eq_getElem hi⟩
    obtain ⟨fg, hfg⟩ : ∃ fg, (s.seeing_model.seeing_at_airmass (v : ℝ) a).2[i]? = some fg :=
      ⟨_, List.getElem?_eq_getElem (by omega)⟩
    refine ⟨fe, fg, hfe, hfg, ?_⟩
    unfold SeeingSim.calculate_seeing SeeingData.fwhm500_at_time
    rw [hlook]
    simp only [hidx, List.get?_eq_getElem?, hfe, hfg]

/-- C1 witness: the orchestrator pass-through instantiated on `simW`
(two-sample data, single filter) at delta_time 172 and airmass 1.2. -/
theorem orchestrator_returns_lookup_and_model_values_witness :
    simW.get_fwhm500 172 = .ok (1/2) ∧
    simW.get_seeing 172 1.2 = .ok (1/2,
      (simW.seeing_model.seeing_at_airmass (((1:ℚ)/2 : ℚ) : ℝ) 1.2).2,
      (simW.seeing_model.seeing_at_airmass (((1:ℚ)/2 : ℚ) : ℝ) 1.2).1) ∧
    ∃ fe fg, (simW.seeing_model.seeing_at_airmass (((1:ℚ)/2 : ℚ) : ℝ) 1.2).1[0]? = some fe ∧
      (simW.seeing_model.seeing_at_airmass (((1:ℚ)/2 : ℚ) : ℝ) 1.2).2[0]? = some fg ∧
      simW.calculate_seeing 172 "u" 1.2 = .ok (1/2, fg, fe) :=
  orchestrator_returns_lookup_and_model_values simW 172 1.2 (1/2) "u" 0
    (by norm_num [simW, sdTwo, SeeingData.call, pymod, searchsorted, pyget,
      List.countP, List.countP.go])
    (by norm_num [simW, py_list_index])
    (by rw [seeing_at_airmass_eq]; norm_num [simW, modelW, SeeingModel.create])

/-- C9: whenever the lookup succeeds, `calculate_seeing` with a filter
name not in the configured filter list fails with the unknown-filter
error (the `list.index` miss), and with a filter name in the list it does
not fail: it returns the values at that filter's index. -/
theorem calculate_seeing_filter_validation (s : SeeingSim) (dt : ℚ) (a : ℝ) (v : ℚ)
    (fname : String)
    (hlook : s.seeing_data.call dt = .ok v)
    (hlen : s.filter_list.length ≤ (s.seeing_model.seeing_at_airmass (v : ℝ) a).1.length) :
    (fname ∉ s.filter_list → s.calculate_seeing dt fname a = .error .unknownFilter) ∧
    (fname ∈ s.filter_list → ∃ i fe fg, py_list_index fname s.filter_list = some i ∧
      (s.seeing_model.seeing_at_airmass (v : ℝ) a).1[i]? = some fe ∧
      (s.seeing_model.seeing_at_airmass (v : ℝ) a).2[i]? = some fg ∧
      s.calculate_seeing dt fname a = .ok (v, fg, fe)) := by
  have h2len : (s.seeing_model.seeing_at_airmass (v : ℝ) a).2.length
      = (s.seeing_model.seeing_at_airmass (v : ℝ) a).1.length := by
    rw [seeing_at_airmass_eq]; simp
  constructor
  · intro hnm
    unfold SeeingSim.calculate_seeing SeeingData.fwhm500_at_time
    rw [hlook]
    simp only [py_list_index_eq_none hnm]
  · intro hm
    obtain ⟨i, hidx, hlt⟩ := py_list_index_eq_some hm
    have hi : i < (s.seeing_model.seeing_at_airmass (v : ℝ) a).1.length := by omega
    obtain ⟨fe, hfe⟩ : ∃ fe, (s.seeing_model.seeing_at_airmass (v : ℝ) a).1[i]? = some fe :=
      ⟨_, List.getElem?_eq_getElem hi⟩
    obtain ⟨fg, hfg⟩ : ∃ fg, (s.seeing_model.seeing_at_airmass (v : ℝ) a).2[i]? = some fg :=
      ⟨_, List.getElem?_eq_getElem (by omega)⟩
    refine ⟨i, fe, fg, hidx, hfe, hfg, ?_⟩
    unfold SeeingSim.calculate_seeing SeeingData.fwhm500_at_time
    rw [hlook]
    simp only [hidx, List.get?_eq_getElem?, hfe, hfg]

/-- C9 witness: the filter validation instantiated on `simW` at
delta_time 172 and airmass 1.2 ("x" is unknown, "u" is configured). -/
theorem calculate_seeing_filter_validation_witness :
    ("x" ∉ simW.filter_list → simW.calculate_seeing 172 "x" 1.2 = .error .unknownFilter) ∧
    ("x" ∈ simW.filter_list → ∃ i fe fg, py_list_index "x" simW.filter_list = some i ∧
      (simW.seeing_model.seeing_at_airmass (((1:ℚ)/2 : ℚ) : ℝ) 1.2).1[i]? = some fe ∧
      (simW.seeing_model.seeing_at_airmass (((1:ℚ)/2 : ℚ) : ℝ) 1.2).2[i]? = some fg ∧
      simW.calculate_seeing 172 "x" 1.2 = .ok (1/2, fg, fe)) :=
  calculate_seeing_filter_validation simW 172 1.2 (1/2) "x"
    (by norm_num [simW, sdTwo, SeeingData.call, pymod, searchsorted, pyget,
      List.countP, List.countP.go])
    (by rw [seeing_at_airmass_eq]; norm_num [simW, modelW, SeeingModel.create])

/-- C10: when the data load succeeds and `filter_effwavelens` is
supplied, orchestrator construction fails with a `ValueError` if
`filter_list` is missing or of mismatched length, and otherwise succeeds
with the model's filter list replaced by the supplied one. -/
theorem seeingSim_init_filter_validation (offset : ℚ) (rows : List (ℚ × ℚ))
    (t o c raw : ℝ) (wl : List ℝ) (sd : SeeingData)
    (hload : SeeingData.read_data offset rows = .ok sd) :
    (SeeingSim.create offset rows t o c raw (some wl) none = .error .valueError) ∧
    (∀ fl : List String, fl.length ≠ wl.length →
      SeeingSim.create offset rows t o c raw (some wl) (some fl) = .error .valueError) ∧
    (∀ fl : List String, fl.length = wl.length →
      SeeingSim.create offset rows t o c raw (some wl) (some fl)
        = .ok ⟨sd, { SeeingModel.create t o c raw (some wl) with filter_list := some fl },
            fl⟩) := by
  refine ⟨?_, ?_, ?_⟩
  · unfold SeeingSim.create
    rw [hload]
  · intro fl hne
    unfold SeeingSim.create
    rw [hload]
    simp only [if_pos hne]
  · intro fl heq
    unfold SeeingSim.create
    rw [hload]
    simp only [if_neg (by omega : ¬ fl.length ≠ wl.length)]

/-- C10 witness: the construction validation instantiated on the
two-sample rows with one supplied wavelength. -/
theorem seeingSim_init_filter_validation_witness :
    (SeeingSim.create 0 twoSampleRows 0.25 0.08 0.30 500 (some [500]) none
      = .error .valueError) ∧
    (∀ fl : List String, fl.length ≠ ([(500 : ℝ)]).length →
      SeeingSim.create 0 twoSampleRows 0.25 0.08 0.30 500 (some [500]) (some fl)
        = .error .valueError) ∧
    (∀ fl : List String, fl.length = ([(500 : ℝ)]).length →
      SeeingSim.create 0 twoSampleRows 0.25 0.08 0.30 500 (some [500]) (some fl)
        = .ok ⟨sdTwo, { SeeingModel.create 0.25 0.08 0.30 500 (some [500]) with
            filter_list := some fl }, fl⟩) :=
  seeingSim_init_filter_validation 0 twoSampleRows 0.25 0.08 0.30 500 [500] sdTwo
    (by norm_num [SeeingData.read_data, sortRows, twoSampleRows, sdTwo,
      List.insertionSort, List.orderedInsert])

end SeeingPkg
